import Mathlib

/-!
Verification of the vertex-claude-code-router gateway (src/app.py, src/client.py)
against its natural-language specification.

The embedding models the JSON-like request values handled by the Flask route
`create_message` (src/app.py lines 175-338), the adapter parameter construction
of `VertexClaudeClient.create_message` (lines 143-170), and the SSE streaming
generator `generate` (lines 217-298).  Python dicts are modelled as association
lists with unique keys (insertion-ordered, as Python dicts are); Python dynamic
type errors (KeyError, AttributeError, TypeError, unhashable keys) are modelled
as explicit error results that the top-level `except Exception` handler of the
route converts into HTTP 500 responses.  JSON numbers are modelled as integers
(no claim involves floating point).
-/

/-- A JSON-like value as handled by the Flask route: the payload of the inbound
request body, of content parts, and of outbound response bodies. -/
inductive Val where
  | vnull : Val
  | vbool : Bool → Val
  | vint : Int → Val
  | vstr : String → Val
  | vlist : List Val → Val
  | vdict : List (String × Val) → Val

/-- Python `d.get(k)` on a dict modelled as an insertion-ordered association
list: the value at the first matching key, if any. -/
def dictGet : List (String × Val) → String → Option Val
  | [], _ => none
  | p :: rest, k => if p.1 = k then some p.2 else dictGet rest k

/-- Python `d[k] = v`: replace the value at key `k` in place (keeping its
position), or append the binding if the key is absent. -/
def dictSet : List (String × Val) → String → Val → List (String × Val)
  | [], k, v => [(k, v)]
  | p :: rest, k, v => if p.1 = k then (k, v) :: rest else p :: dictSet rest k v

/-- Python truthiness of a value, as used by `if not data`, `if not messages`,
`data.get` of the stream flag and `if system_prompt:` in src/app.py. -/
def pyTruthy : Val → Bool
  | Val.vnull => false
  | Val.vbool b => b
  | Val.vint n => n != 0
  | Val.vstr s => s != ""
  | Val.vlist [] => false
  | Val.vlist (_ :: _) => true
  | Val.vdict [] => false
  | Val.vdict (_ :: _) => true

/-- The Python name of the type of a value, used to build the messages of
dynamic type errors. -/
def pyTypeName : Val → String
  | Val.vnull => "NoneType"
  | Val.vbool _ => "bool"
  | Val.vint _ => "int"
  | Val.vstr _ => "str"
  | Val.vlist _ => "list"
  | Val.vdict _ => "dict"

/-- Python dict-literal merge `\x7b**a, **b\x7d`: keys of `a` keep their
position with values overridden by `b` where shared; keys only in `b` are
appended in order. -/
def mergeDicts (a b : List (String × Val)) : List (String × Val) :=
  a.map (fun p => match dictGet b p.1 with
    | some v => (p.1, v)
    | none => p)
  ++ b.filter (fun p => (dictGet a p.1).isNone)

/-- The environment configuration of src/app.py lines 96-97: the primary model
identifier CLAUDE_MODEL and the secondary (haiku) identifier CLAUDE_HAIKU_MODEL. -/
structure Config where
  MODEL : String
  HAIKU_MODEL : String
deriving DecidableEq

/-- The default configuration values of src/app.py lines 96-97. -/
def defaultConfig : Config :=
  { MODEL := "claude-3-7-sonnet@20250219", HAIKU_MODEL := "claude-3-5-haiku@20241022" }

/-- The static model alias table SUPPORTED_MODELS of src/app.py lines 100-105. -/
def SUPPORTED_MODELS (cfg : Config) : List (String × String) :=
  [("claude-3-sonnet-20240229", cfg.MODEL),
   ("claude-3-7-sonnet-20250219", cfg.MODEL),
   ("claude-3-haiku-20240307", cfg.HAIKU_MODEL),
   ("claude-3-5-haiku-20241022", cfg.HAIKU_MODEL)]

/-- First-match lookup in a string association list. -/
def lookupStr : List (String × String) → String → Option String
  | [], _ => none
  | p :: rest, k => if p.1 = k then some p.2 else lookupStr rest k

/-- Model alias resolution, src/app.py lines 186-193: the requested model is
tested for membership in SUPPORTED_MODELS; a table hit maps to the configured
identifier, any other hashable value (strings not in the table, numbers,
booleans, None, or an absent field) silently falls back to the primary MODEL.
Membership testing hashes the value, so an unhashable value (a list or a dict)
raises a TypeError, modelled as the error case. -/
def resolveModel (cfg : Config) (requested : Option Val) : Except String String :=
  match requested with
  | some (Val.vlist _) => Except.error "unhashable type: \x27list\x27"
  | some (Val.vdict _) => Except.error "unhashable type: \x27dict\x27"
  | some (Val.vstr s) =>
      match lookupStr (SUPPORTED_MODELS cfg) s with
      | some m => Except.ok m
      | none => Except.ok cfg.MODEL
  | _ => Except.ok cfg.MODEL

/-- Parameter construction of `VertexClaudeClient.create_message`, src/app.py
lines 143-163: the dict passed to `self.client.messages.create` or
`self.client.messages.stream`.  A passthrough key `max_tokens` binds the named
parameter (and so still lands in the first dict slot); the rebuilt dict places
`max_tokens`, the single-turn `messages` list and the configured model first,
then merges every passthrough entry whose key is neither `messages` nor
`system` (overriding `model` when present); `system` is attached afterwards if
truthy, and `tools` if the adapter has any. -/
def adapter_create_message_params (selfModel : String) (tools : List Val)
    (prompt : String) (system_prompt : Option Val)
    (kwargs : List (String × Val)) : List (String × Val) :=
  let maxTok : Val := (dictGet kwargs "max_tokens").getD (Val.vint 1024)
  let rest := kwargs.filter (fun p => !(p.1 == "max_tokens"))
  let base : List (String × Val) :=
    [("max_tokens", maxTok),
     ("messages", Val.vlist [Val.vdict [("role", Val.vstr "user"), ("content", Val.vstr prompt)]]),
     ("model", Val.vstr selfModel)]
  let merged := mergeDicts base
    (rest.filter (fun p => !(p.1 == "messages" || p.1 == "system")))
  let withSys :=
    match system_prompt with
    | some v => if pyTruthy v then dictSet merged "system" v else merged
    | none => merged
  if tools.isEmpty then withSys else dictSet withSys "tools" (Val.vlist tools)

/-- The usage record of an upstream Message, as read by src/app.py
lines 325-330. -/
structure Usage where
  input_tokens : Int
  output_tokens : Int
  cache_creation_input_tokens : Int
  cache_read_input_tokens : Int
deriving DecidableEq

/-- A content block of an upstream Message, as read by src/app.py line 319. -/
structure ContentBlock where
  type : String
  text : String
deriving DecidableEq

/-- The upstream Message object returned by the provider `create` call, with
exactly the attributes the route reads at src/app.py lines 317-331. -/
structure Message where
  id : String
  content : List ContentBlock
  model : String
  role : String
  stop_reason : Option String
  stop_sequence : Option String
  type : String
  usage : Usage
deriving DecidableEq

/-- A nullable string attribute serialized to JSON. -/
def optStr : Option String → Val
  | some s => Val.vstr s
  | none => Val.vnull

/-- The JSON body built from the upstream Message by src/app.py lines 316-331
(dict-literal insertion order preserved). -/
def serializeMessage (m : Message) : Val :=
  Val.vdict
    [("id", Val.vstr m.id),
     ("content", Val.vlist (m.content.map (fun b =>
        Val.vdict [("type", Val.vstr b.type), ("text", Val.vstr b.text)]))),
     ("model", Val.vstr m.model),
     ("role", Val.vstr m.role),
     ("stop_reason", optStr m.stop_reason),
     ("stop_sequence", optStr m.stop_sequence),
     ("type", Val.vstr m.type),
     ("usage", Val.vdict
        [("input_tokens", Val.vint m.usage.input_tokens),
         ("output_tokens", Val.vint m.usage.output_tokens),
         ("cache_creation_input_tokens", Val.vint m.usage.cache_creation_input_tokens),
         ("cache_read_input_tokens", Val.vint m.usage.cache_read_input_tokens)])]

/-- The keys of a JSON object value (in order); empty for non-objects. -/
def dictKeys : Val → List String
  | Val.vdict fs => fs.map Prod.fst
  | _ => []

/-- Field access on a JSON object value. -/
def vGet : Val → String → Option Val
  | Val.vdict fs, k => dictGet fs k
  | _, _ => none

/-- One hexadecimal digit, lowercase. -/
def hexDigit (n : Nat) : Char :=
  if n < 10 then Char.ofNat (48 + n) else Char.ofNat (87 + n)

/-- Four lowercase hexadecimal digits, as in a JSON \u escape. -/
def hex4 (n : Nat) : String :=
  String.mk [hexDigit (n / 4096 % 16), hexDigit (n / 256 % 16),
             hexDigit (n / 16 % 16), hexDigit (n % 16)]

/-- String-character escaping of Python json.dumps with its default
ensure_ascii=True: the two-character escapes for quote, backslash and common
control characters, \u00xx for other control characters, and \uxxxx for
non-ASCII characters (characters beyond the basic multilingual plane are
simplified to a single \u escape rather than a surrogate pair). -/
def jsonEscapeChar (c : Char) : String :=
  if c = Char.ofNat 34 then "\\\""
  else if c = Char.ofNat 92 then "\\\\"
  else if c = Char.ofNat 10 then "\\n"
  else if c = Char.ofNat 13 then "\\r"
  else if c = Char.ofNat 9 then "\\t"
  else if c = Char.ofNat 8 then "\\b"
  else if c = Char.ofNat 12 then "\\f"
  else if c.toNat < 32 ∨ c.toNat > 126 then "\\u" ++ hex4 c.toNat
  else String.mk [c]

/-- A JSON string literal as produced by Python json.dumps. -/
def jsonStrLit (s : String) : String :=
  "\"" ++ String.join (s.data.map jsonEscapeChar) ++ "\""

mutual
/-- Python json.dumps with its default separators (a comma-space between
items, a colon-space between a key and its value), dict insertion order
preserved. -/
def jsonDumps : Val → String
  | Val.vnull => "null"
  | Val.vbool true => "true"
  | Val.vbool false => "false"
  | Val.vint n => toString n
  | Val.vstr s => jsonStrLit s
  | Val.vlist xs => "[" ++ String.intercalate ", " (jsonDumpsList xs) ++ "]"
  | Val.vdict fs => "\x7b" ++ String.intercalate ", " (jsonDumpsPairs fs) ++ "\x7d"

/-- json.dumps of each element of a JSON array. -/
def jsonDumpsList : List Val → List String
  | [] => []
  | x :: xs => jsonDumps x :: jsonDumpsList xs

/-- json.dumps of each key-value entry of a JSON object. -/
def jsonDumpsPairs : List (String × Val) → List String
  | [] => []
  | p :: ps => (jsonStrLit p.1 ++ ": " ++ jsonDumps p.2) :: jsonDumpsPairs ps
end

/-- One server-sent event as yielded by the streaming generator of src/app.py:
the literal framing of every `yield f"event: ...\ndata: ...\n\n"` line
(lines 235, 246, 270, 277, 292, 298). -/
def sseEvent (ty : String) (payload : Val) : String :=
  "event: " ++ ty ++ "\ndata: " ++ jsonDumps payload ++ "\n\n"

/-- The message_start payload of src/app.py lines 222-234: the placeholder
message envelope with the globally configured MODEL and the 1/1 usage
placeholder. -/
def messageStartPayload (cfg : Config) (msgId : String) : Val :=
  Val.vdict
    [("type", Val.vstr "message_start"),
     ("message", Val.vdict
        [("id", Val.vstr msgId),
         ("type", Val.vstr "message"),
         ("role", Val.vstr "assistant"),
         ("content", Val.vlist []),
         ("model", Val.vstr cfg.MODEL),
         ("stop_reason", Val.vnull),
         ("stop_sequence", Val.vnull),
         ("usage", Val.vdict
            [("input_tokens", Val.vint 1), ("output_tokens", Val.vint 1)])])]

/-- The content_block_start payload of src/app.py lines 238-245: index 0 and
an empty text block. -/
def blockStartPayload : Val :=
  Val.vdict
    [("type", Val.vstr "content_block_start"),
     ("index", Val.vint 0),
     ("content_block", Val.vdict [("type", Val.vstr "text"), ("text", Val.vstr "")])]

/-- The content_block_delta payload of src/app.py lines 260-267 for one
upstream fragment. -/
def deltaPayload (chunk : String) : Val :=
  Val.vdict
    [("type", Val.vstr "content_block_delta"),
     ("index", Val.vint 0),
     ("delta", Val.vdict [("type", Val.vstr "text_delta"), ("text", Val.vstr chunk)])]

/-- The content_block_stop payload of src/app.py lines 273-276. -/
def blockStopPayload : Val :=
  Val.vdict [("type", Val.vstr "content_block_stop"), ("index", Val.vint 0)]

/-- The message_delta payload of src/app.py lines 280-291: stop_reason
end_turn, the accumulated text, and the 100/150 usage placeholder. -/
def messageDeltaPayload (accumulated : String) : Val :=
  Val.vdict
    [("type", Val.vstr "message_delta"),
     ("delta", Val.vdict
        [("stop_reason", Val.vstr "end_turn"),
         ("stop_sequence", Val.vnull),
         ("content", Val.vlist
            [Val.vdict [("type", Val.vstr "text"), ("text", Val.vstr accumulated)]])]),
     ("usage", Val.vdict
        [("input_tokens", Val.vint 100), ("output_tokens", Val.vint 150)])]

/-- The message_stop payload of src/app.py lines 295-297. -/
def messageStopPayload : Val :=
  Val.vdict [("type", Val.vstr "message_stop")]

/-- The streaming loop of src/app.py lines 256-270: one content_block_delta
event per upstream fragment in arrival order, threading the accumulated_text
variable; returns the emitted events and the final accumulated text. -/
def streamDeltas (acc : String) : List String → List String × String
  | [] => ([], acc)
  | c :: rest =>
      let ev := sseEvent "content_block_delta" (deltaPayload c)
      let r := streamDeltas (acc ++ c) rest
      (ev :: r.1, r.2)

/-- The generator `generate` of src/app.py lines 217-298, applied to the
sequence of text fragments the upstream stream yields: the full ordered list
of serialized server-sent events of one streaming response. -/
def generate (cfg : Config) (msgId : String) (fragments : List String) : List String :=
  let deltas := streamDeltas "" fragments
  [sseEvent "message_start" (messageStartPayload cfg msgId),
   sseEvent "content_block_start" blockStartPayload]
  ++ deltas.1
  ++ [sseEvent "content_block_stop" blockStopPayload,
      sseEvent "message_delta" (messageDeltaPayload deltas.2),
      sseEvent "message_stop" messageStopPayload]

/-- Evaluation of the generator expression at src/app.py line 208: for each
item of the content list, skip it unless `item.get("type")` equals the string
"text", and read `item["text"]` otherwise.  A non-dict item has no `get`
attribute (AttributeError); a tagged item without a "text" key raises
KeyError("text"), whose Python string form is the quoted key. -/
def gatherTexts : List Val → Except String (List Val)
  | [] => Except.ok []
  | Val.vdict d :: rest =>
      match dictGet d "type" with
      | some (Val.vstr t) =>
          if t = "text" then
            match dictGet d "text" with
            | some v => (gatherTexts rest).map (fun vs => v :: vs)
            | none => Except.error "\x27text\x27"
          else gatherTexts rest
      | _ => gatherTexts rest
  | item :: _ =>
      Except.error ("\x27" ++ pyTypeName item ++ "\x27 object has no attribute \x27get\x27")

/-- The element type check performed by `" ".join(...)` at src/app.py
line 208: every joined item must be a string, otherwise a TypeError. -/
def checkStrs : List Val → Except String (List String)
  | [] => Except.ok []
  | Val.vstr s :: rest => (checkStrs rest).map (fun ts => s :: ts)
  | item :: _ =>
      Except.error ("sequence item: expected str instance, " ++ pyTypeName item ++ " found")

/-- The full space-join of the text parts at src/app.py line 208: evaluate the
generator, then join the collected values with single spaces. -/
def pyJoinTexts (items : List Val) : Except String String :=
  match gatherTexts items with
  | Except.error e => Except.error e
  | Except.ok vs =>
      match checkStrs vs with
      | Except.error e => Except.error e
      | Except.ok ts => Except.ok (String.intercalate " " ts)

/-- Result of the content normalization of src/app.py lines 204-210. -/
inductive Normalized where
  | ok : String → Normalized
  | invalid : Normalized
  | raise : String → Normalized
deriving DecidableEq

/-- Content normalization, src/app.py lines 204-210: a plain string is the
prompt itself; a list is space-joined over its text-tagged parts (any dynamic
error propagating to the top-level handler); anything else falls to the
`Invalid message content format` 400 branch. -/
def normalizeContent : Val → Normalized
  | Val.vstr s => Normalized.ok s
  | Val.vlist items =>
      match pyJoinTexts items with
      | Except.ok s => Normalized.ok s
      | Except.error e => Normalized.raise e
  | _ => Normalized.invalid

/-- Python `messages[0]` on the (truthy) messages value, src/app.py line 203:
indexes a list or a string, raises KeyError 0 on a dict and a TypeError on
non-subscriptable values. -/
def pyIndex0 : Val → Except String Val
  | Val.vlist (x :: _) => Except.ok x
  | Val.vlist [] => Except.error "list index out of range"
  | Val.vstr s =>
      match s.data with
      | c :: _ => Except.ok (Val.vstr (String.mk [c]))
      | [] => Except.error "string index out of range"
  | Val.vdict _ => Except.error "0"
  | v => Except.error ("\x27" ++ pyTypeName v ++ "\x27 object is not subscriptable")

/-- Python `first_message.get("content")`, src/app.py lines 204-206: the
content value (None when absent) of a dict first message; any other first
message has no `get` attribute. -/
def firstContent : Val → Except String Val
  | Val.vdict d => Except.ok ((dictGet d "content").getD Val.vnull)
  | v => Except.error ("\x27" ++ pyTypeName v ++ "\x27 object has no attribute \x27get\x27")

/-- An HTTP outcome of the route: a JSON response with a status code, or a
server-sent-event stream (always status 200). -/
inductive HttpResponse where
  | json : Nat → Val → HttpResponse
  | stream : List String → HttpResponse

/-- A JSON error body, as built by the `jsonify(\x7b"error": ...\x7d)` calls of
src/app.py. -/
def errBody (msg : String) : Val :=
  Val.vdict [("error", Val.vstr msg)]

/-- The request body after model resolution, src/app.py lines 189 and 193:
`data["model"]` is overwritten in place with the resolved identifier. -/
def handlerData (data0 : List (String × Val)) (rm : String) : List (String × Val) :=
  dictSet data0 "model" (Val.vstr rm)

/-- Whether a key is removed from the passthrough parameters by src/app.py
line 213. -/
def strippedKey (k : String) : Bool :=
  k == "messages" || k == "system" || k == "stream"

/-- The passthrough parameter map of src/app.py line 213: every field of the
(post-resolution) body except `messages`, `system` and `stream`. -/
def handlerKwargs (data0 : List (String × Val)) (rm : String) : List (String × Val) :=
  (handlerData data0 rm).filter (fun p => !(strippedKey p.1))

/-- Whether a passthrough key collides with a named parameter of
`VertexClaudeClient.create_message` (src/app.py lines 143-150), making the
call at lines 249-254 or 310-314 raise a TypeError. -/
def collideKey (k : String) : Bool :=
  k == "prompt" || k == "system_prompt" || k == "self"

/-- The string form of the TypeError raised when a passthrough key collides
with a named parameter of the adapter call. -/
def collideErr : String :=
  "create_message() got multiple values for a keyword argument"

/-- The route handler POST /v1/messages, src/app.py lines 175-338.  The
upstream collaborator is abstracted as `send` (the provider `create` call,
mapping the final parameter dict to a Message or an error) and `fragments`
(the text fragments the provider stream yields).  `msgId` stands for the
clock-derived message id of line 218.  The second component of the result
collects the parameter dict of every upstream invocation, in order; Python
exceptions reaching the top-level `except Exception` of lines 336-338 are the
500 branches. -/
def create_message (cfg : Config) (msgId : String)
    (send : List (String × Val) → Except String Message)
    (fragments : List String)
    (dataOpt : Option (List (String × Val))) :
    HttpResponse × List (List (String × Val)) :=
  match dataOpt with
  | none => (HttpResponse.json 400 (errBody "No JSON data provided"), [])
  | some data0 =>
    if data0.isEmpty then (HttpResponse.json 400 (errBody "No JSON data provided"), [])
    else
      match resolveModel cfg (dictGet data0 "model") with
      | Except.error e => (HttpResponse.json 500 (errBody e), [])
      | Except.ok rm =>
        let data := handlerData data0 rm
        let stream := pyTruthy ((dictGet data "stream").getD (Val.vbool false))
        let messages := (dictGet data "messages").getD (Val.vlist [])
        if ¬ pyTruthy messages then
          (HttpResponse.json 400 (errBody "No messages provided"), [])
        else
          match pyIndex0 messages with
          | Except.error e => (HttpResponse.json 500 (errBody e), [])
          | Except.ok first =>
            match firstContent first with
            | Except.error e => (HttpResponse.json 500 (errBody e), [])
            | Except.ok contentVal =>
              match normalizeContent contentVal with
              | Normalized.raise e => (HttpResponse.json 500 (errBody e), [])
              | Normalized.invalid =>
                  (HttpResponse.json 400 (errBody "Invalid message content format"), [])
              | Normalized.ok content =>
                let kwargs := handlerKwargs data0 rm
                let params := adapter_create_message_params cfg.MODEL [] content
                  (dictGet data "system") kwargs
                if stream then
                  if kwargs.any (fun p => collideKey p.1) then
                    (HttpResponse.stream
                      [sseEvent "message_start" (messageStartPayload cfg msgId),
                       sseEvent "content_block_start" blockStartPayload], [])
                  else
                    (HttpResponse.stream (generate cfg msgId fragments), [params])
                else
                  if kwargs.any (fun p => collideKey p.1) then
                    (HttpResponse.json 500 (errBody collideErr), [])
                  else
                    match send params with
                    | Except.error e => (HttpResponse.json 500 (errBody e), [params])
                    | Except.ok m =>
                        (HttpResponse.json 200 (serializeMessage m), [params])

/-- Written from the words of spec §3 (Chat Response): the wire field names of
the enumerated shape — an identifier, a list of content blocks, a model
identifier, a role, a stop reason, a nullable stop sequence, and a usage
record.  Used only to compare the §3 enumeration with the body the code
builds. -/
def specChatResponseFields : List String :=
  ["id", "content", "model", "role", "stop_reason", "stop_sequence", "usage"]

/-- Written from the words of spec §3 and claim C5: the texts of exactly the
parts tagged "text", in order (parts whose tagged text is not a plain string
contribute nothing; the code raises on those, which the comparison theorems
exclude by hypothesis). -/
def specTextParts : List Val → List String
  | [] => []
  | item :: rest =>
      match item with
      | Val.vdict d =>
          match dictGet d "type" with
          | some (Val.vstr t) =>
              if t = "text" then
                match dictGet d "text" with
                | some (Val.vstr s) => s :: specTextParts rest
                | _ => specTextParts rest
              else specTextParts rest
          | _ => specTextParts rest
      | _ => specTextParts rest

/-- Written from the words of spec §3 / claim C5: the single-space join of the
texts of the text-tagged parts. -/
def spec_text_concat (items : List Val) : String :=
  String.intercalate " " (specTextParts items)

/-- A fixed upstream Message used to instantiate stubbed upstream clients in
concrete round trips. -/
def msg0 : Message :=
  { id := "msg_abc",
    content := [{ type := "text", text := "Hello there" }],
    model := "claude-3-7-sonnet@20250219",
    role := "assistant",
    stop_reason := some "end_turn",
    stop_sequence := none,
    type := "message",
    usage := { input_tokens := 12, output_tokens := 7,
               cache_creation_input_tokens := 0, cache_read_input_tokens := 0 } }

/-- A stubbed upstream client that always succeeds with `msg0`. -/
def sendOk : List (String × Val) → Except String Message :=
  fun _ => Except.ok msg0

theorem strFoldlInit (l : List String) : ∀ (a : String),
    l.foldl (fun r s => r ++ s) a = a ++ l.foldl (fun r s => r ++ s) "" := by
  induction l with
  | nil => intro a; simp [String.append_empty]
  | cons c l ih =>
      intro a
      simp only [List.foldl_cons]
      rw [ih (a ++ c), ih ("" ++ c), String.empty_append, String.append_assoc]

theorem strJoinCons (s : String) (l : List String) :
    String.join (s :: l) = s ++ String.join l := by
  show (s :: l).foldl (fun r s => r ++ s) "" = s ++ String.join l
  simp only [List.foldl_cons, String.empty_append]
  exact strFoldlInit l s

theorem dictGet_dictSet_self (l : List (String × Val)) (k : String) (v : Val) :
    dictGet (dictSet l k v) k = some v := by
  induction l with
  | nil => simp [dictSet, dictGet]
  | cons p rest ih =>
      by_cases h : p.1 = k
      · simp [dictSet, dictGet, h]
      · simp [dictSet, dictGet, h, ih]

theorem dictGet_dictSet_ne (l : List (String × Val)) (k k2 : String) (v : Val)
    (h : k ≠ k2) : dictGet (dictSet l k v) k2 = dictGet l k2 := by
  induction l with
  | nil => simp [dictSet, dictGet, h]
  | cons p rest ih =>
      by_cases hp : p.1 = k
      · have hp2 : p.1 ≠ k2 := hp ▸ h
        simp [dictSet, dictGet, hp, h, hp2]
      · have h2 : ¬ (k2 = k) := fun hh => h hh.symm
        by_cases hq : p.1 = k2
        · simp [dictSet, dictGet, hp, hq, h2]
        · simp [dictSet, dictGet, hp, hq, ih]

theorem dictSet_ne_nil (l : List (String × Val)) (k : String) (v : Val) :
    dictSet l k v ≠ [] := by
  cases l with
  | nil => simp [dictSet]
  | cons p rest =>
      by_cases h : p.1 = k <;> simp [dictSet, h]

theorem dictGet_ne_nil (l : List (String × Val)) (k : String) (v : Val)
    (h : dictGet l k = some v) : l ≠ [] := by
  cases l with
  | nil => simp [dictGet] at h
  | cons p rest => simp

theorem dictGet_filterKey (Q : String → Bool) (l : List (String × Val)) (k : String) :
    dictGet (l.filter (fun p => Q p.1)) k = if Q k then dictGet l k else none := by
  induction l with
  | nil => simp [dictGet]
  | cons p rest ih =>
      by_cases hq : Q p.1
      · by_cases hk : p.1 = k
        · subst hk
          simp [List.filter_cons, hq, dictGet]
        · simp [List.filter_cons, hq, dictGet, hk, ih]
      · by_cases hk : p.1 = k
        · subst hk
          simp only [List.filter_cons]
          simp only [Bool.not_eq_true] at hq
          simp [hq, ih, dictGet]
        · simp only [List.filter_cons]
          simp only [Bool.not_eq_true] at hq
          simp [hq, ih, dictGet, hk]

theorem dictSet_filter_true (Q : String → Bool) (l : List (String × Val))
    (k : String) (v : Val) (hQ : Q k = true) :
    (dictSet l k v).filter (fun p => Q p.1) = dictSet (l.filter (fun p => Q p.1)) k v := by
  induction l with
  | nil => simp [dictSet, List.filter_cons, hQ]
  | cons p rest ih =>
      by_cases hp : p.1 = k
      · subst hp
        simp [dictSet, List.filter_cons, hQ]
      · by_cases hq : Q p.1
        · simp [dictSet, List.filter_cons, hp, hq, ih]
        · simp only [Bool.not_eq_true] at hq
          simp [dictSet, List.filter_cons, hp, hq, ih]

theorem dictSet_filter_false (Q : String → Bool) (l : List (String × Val))
    (k : String) (v : Val) (hQ : Q k = false) :
    (dictSet l k v).filter (fun p => Q p.1) = l.filter (fun p => Q p.1) := by
  induction l with
  | nil => simp [dictSet, List.filter_cons, hQ]
  | cons p rest ih =>
      by_cases hp : p.1 = k
      · subst hp
        simp [dictSet, List.filter_cons, hQ]
      · by_cases hq : Q p.1
        · simp [dictSet, List.filter_cons, hp, hq, ih]
        · simp only [Bool.not_eq_true] at hq
          simp [dictSet, List.filter_cons, hp, hq, ih]

theorem dictGet_append (a b : List (String × Val)) (k : String) :
    dictGet (a ++ b) k =
      match dictGet a k with
      | some v => some v
      | none => dictGet b k := by
  induction a with
  | nil => simp [dictGet]
  | cons p rest ih =>
      by_cases hp : p.1 = k
      · simp [dictGet, hp]
      · simp [dictGet, hp, ih]

theorem dictGet_mapReplace (a b : List (String × Val)) (k : String) :
    dictGet (a.map (fun p => match dictGet b p.1 with
      | some v => (p.1, v)
      | none => p)) k =
      match dictGet a k with
      | some v => some ((dictGet b k).getD v)
      | none => none := by
  induction a with
  | nil => simp [dictGet]
  | cons p rest ih =>
      by_cases hp : p.1 = k
      · subst hp
        cases hb : dictGet b p.1 <;> simp [dictGet, hb]
      · cases hb : dictGet b p.1 <;> simp [dictGet, hp, hb, ih]

theorem dictGet_mergeDicts (a b : List (String × Val)) (k : String) :
    dictGet (mergeDicts a b) k =
      match dictGet a k with
      | some v => some ((dictGet b k).getD v)
      | none => dictGet b k := by
  unfold mergeDicts
  rw [dictGet_append, dictGet_mapReplace]
  have hfilter : dictGet (b.filter (fun p => (dictGet a p.1).isNone)) k =
      if (dictGet a k).isNone then dictGet b k else none :=
    dictGet_filterKey (fun s => (dictGet a s).isNone) b k
  cases ha : dictGet a k with
  | some v => simp [hfilter, ha]
  | none => simp [hfilter, ha]

theorem streamDeltas_spec (fragments : List String) : ∀ (acc : String),
    streamDeltas acc fragments =
      (fragments.map (fun c => sseEvent "content_block_delta" (deltaPayload c)),
       acc ++ String.join fragments) := by
  induction fragments with
  | nil => intro acc; simp [streamDeltas, String.join, String.append_empty]
  | cons c rest ih =>
      intro acc
      simp only [streamDeltas, ih (acc ++ c), List.map_cons]
      rw [strJoinCons, String.append_assoc]

/-- Claim C1: for every finite sequence of upstream text fragments, the
streaming handler emits exactly one message_start, then one
content_block_start with index 0 and empty text, then one content_block_delta
per fragment in arrival order carrying that fragment text, then one
content_block_stop with index 0, then one message_delta whose delta has
stop_reason end_turn and whose accumulated content text is the concatenation
of all fragments in order, then one message_stop; each event serialized as the
SSE framing `event: type, newline, data: json, blank line`. -/
theorem c1_streaming_event_sequence (cfg : Config) (msgId : String)
    (fragments : List String) :
    generate cfg msgId fragments =
      [sseEvent "message_start" (messageStartPayload cfg msgId),
       sseEvent "content_block_start" (Val.vdict
         [("type", Val.vstr "content_block_start"),
          ("index", Val.vint 0),
          ("content_block", Val.vdict
            [("type", Val.vstr "text"), ("text", Val.vstr "")])])]
      ++ fragments.map (fun c => sseEvent "content_block_delta" (Val.vdict
           [("type", Val.vstr "content_block_delta"),
            ("index", Val.vint 0),
            ("delta", Val.vdict
              [("type", Val.vstr "text_delta"), ("text", Val.vstr c)])]))
      ++ [sseEvent "content_block_stop" (Val.vdict
            [("type", Val.vstr "content_block_stop"), ("index", Val.vint 0)]),
          sseEvent "message_delta" (Val.vdict
            [("type", Val.vstr "message_delta"),
             ("delta", Val.vdict
               [("stop_reason", Val.vstr "end_turn"),
                ("stop_sequence", Val.vnull),
                ("content", Val.vlist
                  [Val.vdict [("type", Val.vstr "text"),
                              ("text", Val.vstr (String.join fragments))]])]),
             ("usage", Val.vdict
               [("input_tokens", Val.vint 100), ("output_tokens", Val.vint 150)])]),
          sseEvent "message_stop" (Val.vdict [("type", Val.vstr "message_stop")])]
      ∧ ∀ (ty : String) (payload : Val),
          sseEvent ty payload =
            "event: " ++ ty ++ "\ndata: " ++ jsonDumps payload ++ "\n\n" := by
  constructor
  · unfold generate
    rw [streamDeltas_spec fragments ""]
    simp only [String.empty_append, blockStartPayload, deltaPayload, blockStopPayload,
      messageDeltaPayload, messageStopPayload]
  · intro ty payload
    rfl

/-- Claim C3: resolution of the four recognized legacy aliases follows the
static table into the configured primary or secondary identifier; an absent
model field and every unrecognized alias string resolve to the configured
primary identifier without an error. -/
theorem c3_model_alias_resolution (cfg : Config) :
    resolveModel cfg (some (Val.vstr "claude-3-sonnet-20240229")) = Except.ok cfg.MODEL ∧
    resolveModel cfg (some (Val.vstr "claude-3-7-sonnet-20250219")) = Except.ok cfg.MODEL ∧
    resolveModel cfg (some (Val.vstr "claude-3-haiku-20240307")) = Except.ok cfg.HAIKU_MODEL ∧
    resolveModel cfg (some (Val.vstr "claude-3-5-haiku-20241022")) = Except.ok cfg.HAIKU_MODEL ∧
    resolveModel cfg none = Except.ok cfg.MODEL ∧
    (∀ s : String,
      s ∉ ["claude-3-sonnet-20240229", "claude-3-7-sonnet-20250219",
            "claude-3-haiku-20240307", "claude-3-5-haiku-20241022"] →
      resolveModel cfg (some (Val.vstr s)) = Except.ok cfg.MODEL) := by
  refine ⟨rfl, rfl, rfl, rfl, rfl, ?_⟩
  intro s hs
  simp only [List.mem_cons, List.not_mem_nil, or_false, not_or] at hs
  obtain ⟨n1, n2, n3, n4⟩ := hs
  simp [resolveModel, SUPPORTED_MODELS, lookupStr, Ne.symm n1, Ne.symm n2,
    Ne.symm n3, Ne.symm n4]

/-- Witness for claim C3 at a concrete unknown alias and at an absent field. -/
theorem c3_model_alias_resolution_witness :
    resolveModel defaultConfig (some (Val.vstr "gpt-4o")) = Except.ok defaultConfig.MODEL ∧
    resolveModel defaultConfig none = Except.ok defaultConfig.MODEL :=
  ⟨(c3_model_alias_resolution defaultConfig).2.2.2.2.2 "gpt-4o" (by decide),
   (c3_model_alias_resolution defaultConfig).2.2.2.2.1⟩

theorem route_reaches_call (cfg : Config) (msgId : String)
    (send : List (String × Val) → Except String Message)
    (fragments : List String) (data0 : List (String × Val))
    (rm : String) (fm : List (String × Val)) (restMsgs : List Val) (p : String)
    (h1 : resolveModel cfg (dictGet data0 "model") = Except.ok rm)
    (h2 : dictGet data0 "messages" = some (Val.vlist (Val.vdict fm :: restMsgs)))
    (h3 : normalizeContent ((dictGet fm "content").getD Val.vnull) = Normalized.ok p)
    (h4 : (handlerKwargs data0 rm).any (fun q => collideKey q.1) = false) :
    create_message cfg msgId send fragments (some data0) =
      (let params := adapter_create_message_params cfg.MODEL [] p
          (dictGet data0 "system") (handlerKwargs data0 rm)
       if pyTruthy ((dictGet data0 "stream").getD (Val.vbool false)) then
         (HttpResponse.stream (generate cfg msgId fragments), [params])
       else
         match send params with
         | Except.error e => (HttpResponse.json 500 (errBody e), [params])
         | Except.ok m => (HttpResponse.json 200 (serializeMessage m), [params])) := by
  have hne : data0 ≠ [] := dictGet_ne_nil data0 "messages" _ h2
  have hE : data0.isEmpty = false := by
    cases data0 with
    | nil => exact absurd rfl hne
    | cons q qs => rfl
  have hMsgs : dictGet (handlerData data0 rm) "messages" =
      some (Val.vlist (Val.vdict fm :: restMsgs)) := by
    rw [handlerData, dictGet_dictSet_ne _ _ _ _ (by decide)]
    exact h2
  have hStream : dictGet (handlerData data0 rm) "stream" = dictGet data0 "stream" :=
    dictGet_dictSet_ne _ _ _ _ (by decide)
  have hSys : dictGet (handlerData data0 rm) "system" = dictGet data0 "system" :=
    dictGet_dictSet_ne _ _ _ _ (by decide)
  unfold create_message
  simp only [h1, hE, hMsgs, hStream, hSys, Option.getD_some, pyTruthy, pyIndex0,
    firstContent, h3, h4, Bool.false_eq_true, if_false, not_true, if_true,
    Bool.not_true, ite_false, ite_true]

theorem adapterParams_get_other (selfModel : String) (prompt : String)
    (sys : Option Val) (kwargs : List (String × Val)) (k : String)
    (hk1 : k ≠ "max_tokens") (hk2 : k ≠ "messages") (hk3 : k ≠ "model")
    (hk4 : k ≠ "system") :
    dictGet (adapter_create_message_params selfModel [] prompt sys kwargs) k =
      dictGet kwargs k := by
  have b1 : (k == "max_tokens") = false := beq_eq_false_iff_ne.mpr hk1
  have b2 : (k == "messages") = false := beq_eq_false_iff_ne.mpr hk2
  have b4 : (k == "system") = false := beq_eq_false_iff_ne.mpr hk4
  have hmerged : dictGet (mergeDicts
      [("max_tokens", (dictGet kwargs "max_tokens").getD (Val.vint 1024)),
       ("messages", Val.vlist [Val.vdict [("role", Val.vstr "user"),
          ("content", Val.vstr prompt)]]),
       ("model", Val.vstr selfModel)]
      (((kwargs.filter (fun p => !(p.1 == "max_tokens"))).filter
        (fun p => !(p.1 == "messages" || p.1 == "system"))))) k = dictGet kwargs k := by
    rw [dictGet_mergeDicts,
      dictGet_filterKey (fun s => !(s == "messages" || s == "system")),
      dictGet_filterKey (fun s => !(s == "max_tokens"))]
    simp [dictGet, Ne.symm hk1, Ne.symm hk2, Ne.symm hk3, b1, b2, b4]
  unfold adapter_create_message_params
  simp only [List.isEmpty_nil, if_true, ite_true]
  cases sys with
  | none => exact hmerged
  | some v =>
      by_cases hv : pyTruthy v
      · simp only [hv, if_true, ite_true]
        rw [dictGet_dictSet_ne _ _ _ _ (Ne.symm hk4)]
        exact hmerged
      · simp only [hv, Bool.false_eq_true, if_false, ite_false]
        exact hmerged

theorem adapterParams_get_messages (selfModel : String) (prompt : String)
    (sys : Option Val) (kwargs : List (String × Val)) :
    dictGet (adapter_create_message_params selfModel [] prompt sys kwargs) "messages" =
      some (Val.vlist [Val.vdict [("role", Val.vstr "user"),
        ("content", Val.vstr prompt)]]) := by
  have hmerged : dictGet (mergeDicts
      [("max_tokens", (dictGet kwargs "max_tokens").getD (Val.vint 1024)),
       ("messages", Val.vlist [Val.vdict [("role", Val.vstr "user"),
          ("content", Val.vstr prompt)]]),
       ("model", Val.vstr selfModel)]
      (((kwargs.filter (fun p => !(p.1 == "max_tokens"))).filter
        (fun p => !(p.1 == "messages" || p.1 == "system"))))) "messages" =
      some (Val.vlist [Val.vdict [("role", Val.vstr "user"),
        ("content", Val.vstr prompt)]]) := by
    rw [dictGet_mergeDicts,
      dictGet_filterKey (fun s => !(s == "messages" || s == "system"))]
    simp [dictGet]
  unfold adapter_create_message_params
  simp only [List.isEmpty_nil, if_true, ite_true]
  cases sys with
  | none => exact hmerged
  | some v =>
      by_cases hv : pyTruthy v
      · simp only [hv, if_true, ite_true]
        rw [dictGet_dictSet_ne _ _ _ _ (by decide)]
        exact hmerged
      · simp only [hv, Bool.false_eq_true, if_false, ite_false]
        exact hmerged

theorem adapterParams_get_model (selfModel : String) (prompt : String)
    (sys : Option Val) (kwargs : List (String × Val)) :
    dictGet (adapter_create_message_params selfModel [] prompt sys kwargs) "model" =
      some ((dictGet kwargs "model").getD (Val.vstr selfModel)) := by
  have hmerged : dictGet (mergeDicts
      [("max_tokens", (dictGet kwargs "max_tokens").getD (Val.vint 1024)),
       ("messages", Val.vlist [Val.vdict [("role", Val.vstr "user"),
          ("content", Val.vstr prompt)]]),
       ("model", Val.vstr selfModel)]
      (((kwargs.filter (fun p => !(p.1 == "max_tokens"))).filter
        (fun p => !(p.1 == "messages" || p.1 == "system"))))) "model" =
      some ((dictGet kwargs "model").getD (Val.vstr selfModel)) := by
    rw [dictGet_mergeDicts,
      dictGet_filterKey (fun s => !(s == "messages" || s == "system")),
      dictGet_filterKey (fun s => !(s == "max_tokens"))]
    simp only [dictGet]
    cases hm : dictGet kwargs "model" <;> simp [hm]
  unfold adapter_create_message_params
  simp only [List.isEmpty_nil, if_true, ite_true]
  cases sys with
  | none => exact hmerged
  | some v =>
      by_cases hv : pyTruthy v
      · simp only [hv, if_true, ite_true]
        rw [dictGet_dictSet_ne _ _ _ _ (by decide)]
        exact hmerged
      · simp only [hv, Bool.false_eq_true, if_false, ite_false]
        exact hmerged

theorem adapterParams_get_max_tokens (selfModel : String) (prompt : String)
    (sys : Option Val) (kwargs : List (String × Val)) :
    dictGet (adapter_create_message_params selfModel [] prompt sys kwargs) "max_tokens" =
      some ((dictGet kwargs "max_tokens").getD (Val.vint 1024)) := by
  have hmerged : dictGet (mergeDicts
      [("max_tokens", (dictGet kwargs "max_tokens").getD (Val.vint 1024)),
       ("messages", Val.vlist [Val.vdict [("role", Val.vstr "user"),
          ("content", Val.vstr prompt)]]),
       ("model", Val.vstr selfModel)]
      (((kwargs.filter (fun p => !(p.1 == "max_tokens"))).filter
        (fun p => !(p.1 == "messages" || p.1 == "system"))))) "max_tokens" =
      some ((dictGet kwargs "max_tokens").getD (Val.vint 1024)) := by
    rw [dictGet_mergeDicts,
      dictGet_filterKey (fun s => !(s == "messages" || s == "system")),
      dictGet_filterKey (fun s => !(s == "max_tokens"))]
    simp [dictGet]
  unfold adapter_create_message_params
  simp only [List.isEmpty_nil, if_true, ite_true]
  cases sys with
  | none => exact hmerged
  | some v =>
      by_cases hv : pyTruthy v
      · simp only [hv, if_true, ite_true]
        rw [dictGet_dictSet_ne _ _ _ _ (by decide)]
        exact hmerged
      · simp only [hv, Bool.false_eq_true, if_false, ite_false]
        exact hmerged

theorem adapterParams_get_system (selfModel : String) (prompt : String)
    (sys : Option Val) (kwargs : List (String × Val)) :
    dictGet (adapter_create_message_params selfModel [] prompt sys kwargs) "system" =
      (match sys with
       | some v => if pyTruthy v then some v else none
       | none => none) := by
  have hmerged : dictGet (mergeDicts
      [("max_tokens", (dictGet kwargs "max_tokens").getD (Val.vint 1024)),
       ("messages", Val.vlist [Val.vdict [("role", Val.vstr "user"),
          ("content", Val.vstr prompt)]]),
       ("model", Val.vstr selfModel)]
      (((kwargs.filter (fun p => !(p.1 == "max_tokens"))).filter
        (fun p => !(p.1 == "messages" || p.1 == "system"))))) "system" = none := by
    rw [dictGet_mergeDicts,
      dictGet_filterKey (fun s => !(s == "messages" || s == "system"))]
    simp [dictGet]
  unfold adapter_create_message_params
  simp only [List.isEmpty_nil, if_true, ite_true]
  cases sys with
  | none => exact hmerged
  | some v =>
      by_cases hv : pyTruthy v
      · simp only [hv, if_true, ite_true]
        rw [dictGet_dictSet_self]
      · simp only [hv, Bool.false_eq_true, if_false, ite_false]
        exact hmerged

theorem handlerKwargs_get (data0 : List (String × Val)) (rm : String) (k : String) :
    dictGet (handlerKwargs data0 rm) k =
      if strippedKey k then none
      else if k = "model" then some (Val.vstr rm)
      else dictGet data0 k := by
  unfold handlerKwargs handlerData
  rw [dictGet_filterKey (fun s => !(strippedKey s))]
  by_cases hs : strippedKey k
  · simp [hs]
  · simp only [Bool.not_eq_true'] at *
    by_cases hm : k = "model"
    · subst hm
      simp [hs, dictGet_dictSet_self]
    · simp [hs, hm, dictGet_dictSet_ne _ _ _ _ (Ne.symm hm)]

/-- Counterexample to claim C2 as stated: the handler strips only messages,
system and stream from the raw parameter map, not model, so the passthrough
parameter map of a request selecting the haiku alias contains the key model —
and the single upstream invocation receives that passthrough model (the
resolved haiku identifier), overriding the adapter-configured primary model. -/
theorem c2_counterexample :
    dictGet (handlerKwargs
      [("model", Val.vstr "claude-3-5-haiku-20241022"),
       ("messages", Val.vlist [Val.vdict [("content", Val.vstr "hi")]]),
       ("temperature", Val.vint 1)] "claude-3-5-haiku@20241022") "model" =
      some (Val.vstr "claude-3-5-haiku@20241022") ∧
    (create_message defaultConfig "msg_c2" sendOk []
      (some [("model", Val.vstr "claude-3-5-haiku-20241022"),
             ("messages", Val.vlist [Val.vdict [("content", Val.vstr "hi")]]),
             ("temperature", Val.vint 1)])).2.map (fun ps => dictGet ps "model") =
      [some (Val.vstr "claude-3-5-haiku@20241022")] ∧
    defaultConfig.MODEL ≠ "claude-3-5-haiku@20241022" :=
  ⟨rfl, rfl, by decide⟩

/-- Claim C2 (amended): the reserved set the handler strips from the raw
parameter map is only messages, system and stream; every other raw field is
forwarded to the upstream call under its own key (max_tokens through the named
parameter), the model key stays in the passthrough map carrying the resolved
upstream identifier (overriding the adapter-configured model), and no
messages, system or stream field of the inbound body reaches the upstream
call as a passthrough parameter. -/
theorem c2_passthrough_params (cfg : Config) (msgId : String)
    (send : List (String × Val) → Except String Message)
    (fragments : List String) (data0 : List (String × Val))
    (rm : String) (fm : List (String × Val)) (restMsgs : List Val) (p : String)
    (h1 : resolveModel cfg (dictGet data0 "model") = Except.ok rm)
    (h2 : dictGet data0 "messages" = some (Val.vlist (Val.vdict fm :: restMsgs)))
    (h3 : normalizeContent ((dictGet fm "content").getD Val.vnull) = Normalized.ok p)
    (h4 : (handlerKwargs data0 rm).any (fun q => collideKey q.1) = false) :
    (create_message cfg msgId send fragments (some data0)).2 =
      [adapter_create_message_params cfg.MODEL [] p (dictGet data0 "system")
        (handlerKwargs data0 rm)] ∧
    (∀ k v, k ≠ "messages" → k ≠ "system" → k ≠ "stream" → k ≠ "model" →
      dictGet data0 k = some v →
      dictGet (adapter_create_message_params cfg.MODEL [] p (dictGet data0 "system")
        (handlerKwargs data0 rm)) k = some v) ∧
    dictGet (adapter_create_message_params cfg.MODEL [] p (dictGet data0 "system")
      (handlerKwargs data0 rm)) "model" = some (Val.vstr rm) ∧
    dictGet (adapter_create_message_params cfg.MODEL [] p (dictGet data0 "system")
      (handlerKwargs data0 rm)) "stream" = none ∧
    dictGet (adapter_create_message_params cfg.MODEL [] p (dictGet data0 "system")
      (handlerKwargs data0 rm)) "messages" =
      some (Val.vlist [Val.vdict [("role", Val.vstr "user"), ("content", Val.vstr p)]]) ∧
    dictGet (handlerKwargs data0 rm) "messages" = none ∧
    dictGet (handlerKwargs data0 rm) "system" = none ∧
    dictGet (handlerKwargs data0 rm) "stream" = none := by
  refine ⟨?_, ?_, ?_, ?_, ?_, ?_, ?_, ?_⟩
  · rw [route_reaches_call cfg msgId send fragments data0 rm fm restMsgs p h1 h2 h3 h4]
    by_cases hst : pyTruthy ((dictGet data0 "stream").getD (Val.vbool false))
    · simp [hst]
    · simp only [hst, Bool.false_eq_true, if_false, ite_false]
      cases hsend : send (adapter_create_message_params cfg.MODEL [] p
          (dictGet data0 "system") (handlerKwargs data0 rm)) <;> simp [hsend]
  · intro k v hk1 hk2 hk3 hk4 hv
    by_cases hmt : k = "max_tokens"
    · subst hmt
      rw [adapterParams_get_max_tokens, handlerKwargs_get]
      simp [strippedKey, hv]
    · rw [adapterParams_get_other _ _ _ _ _ hmt hk1 hk4 hk2, handlerKwargs_get]
      have : strippedKey k = false := by
        simp [strippedKey, hk1, hk2, hk3]
      simp [this, hk4, hv]
  · rw [adapterParams_get_model, handlerKwargs_get]
    simp [strippedKey]
  · rw [adapterParams_get_other _ _ _ _ _ (by decide) (by decide) (by decide) (by decide),
      handlerKwargs_get]
    simp [strippedKey]
  · exact adapterParams_get_messages _ _ _ _
  · rw [handlerKwargs_get]; simp [strippedKey]
  · rw [handlerKwargs_get]; simp [strippedKey]
  · rw [handlerKwargs_get]; simp [strippedKey]

/-- Witness for the amended claim C2 at a concrete request carrying a
temperature passthrough field. -/
theorem c2_passthrough_params_witness :
    dictGet (adapter_create_message_params defaultConfig.MODEL [] "hi"
      (dictGet [("model", Val.vstr "claude-3-5-haiku-20241022"),
                ("messages", Val.vlist [Val.vdict [("content", Val.vstr "hi")]]),
                ("temperature", Val.vint 1)] "system")
      (handlerKwargs
        [("model", Val.vstr "claude-3-5-haiku-20241022"),
         ("messages", Val.vlist [Val.vdict [("content", Val.vstr "hi")]]),
         ("temperature", Val.vint 1)] "claude-3-5-haiku@20241022")) "temperature" =
      some (Val.vint 1) :=
  (c2_passthrough_params defaultConfig "msg_c2w" sendOk []
      [("model", Val.vstr "claude-3-5-haiku-20241022"),
       ("messages", Val.vlist [Val.vdict [("content", Val.vstr "hi")]]),
       ("temperature", Val.vint 1)]
      "claude-3-5-haiku@20241022" [("content", Val.vstr "hi")] [] "hi"
      rfl rfl rfl rfl).2.1 "temperature" (Val.vint 1)
      (by decide) (by decide) (by decide) (by decide) rfl

/-- Counterexample to claim C4 as stated: the HTTP 200 body of a concrete
non-streaming round trip carries a `type` field, which is not among the
fields §3 enumerates, so the body does not match §3 field-for-field with no
additional fields. -/
theorem c4_counterexample :
    (create_message defaultConfig "msg_c4" sendOk []
      (some [("model", Val.vstr "claude-3-7-sonnet-20250219"),
             ("messages", Val.vlist [Val.vdict [("content", Val.vstr "Hi")]])])).1 =
      HttpResponse.json 200 (serializeMessage msg0) ∧
    dictKeys (serializeMessage msg0) =
      ["id", "content", "model", "role", "stop_reason", "stop_sequence", "type", "usage"] ∧
    "type" ∈ dictKeys (serializeMessage msg0) ∧
    "type" ∉ specChatResponseFields :=
  ⟨rfl, rfl, by decide, by decide⟩

/-- Claim C4 (amended): every non-streaming 200 body is the serialization of
the upstream Message consisting of the fields §3 enumerates — identifier,
content blocks (each a type and a text), model, role, stop reason, nullable
stop sequence, and the four-field usage record — plus one additional field
`type` carrying the upstream message type. -/
theorem c4_response_shape (cfg : Config) (msgId : String)
    (send : List (String × Val) → Except String Message)
    (fragments : List String) (data0 : List (String × Val))
    (rm : String) (fm : List (String × Val)) (restMsgs : List Val) (p : String)
    (m : Message)
    (h1 : resolveModel cfg (dictGet data0 "model") = Except.ok rm)
    (h2 : dictGet data0 "messages" = some (Val.vlist (Val.vdict fm :: restMsgs)))
    (h3 : normalizeContent ((dictGet fm "content").getD Val.vnull) = Normalized.ok p)
    (h4 : (handlerKwargs data0 rm).any (fun q => collideKey q.1) = false)
    (h5 : pyTruthy ((dictGet data0 "stream").getD (Val.vbool false)) = false)
    (h6 : send (adapter_create_message_params cfg.MODEL [] p (dictGet data0 "system")
      (handlerKwargs data0 rm)) = Except.ok m) :
    create_message cfg msgId send fragments (some data0) =
      (HttpResponse.json 200 (serializeMessage m),
       [adapter_create_message_params cfg.MODEL [] p (dictGet data0 "system")
         (handlerKwargs data0 rm)]) ∧
    dictKeys (serializeMessage m) =
      ["id", "content", "model", "role", "stop_reason", "stop_sequence", "type", "usage"] ∧
    vGet (serializeMessage m) "id" = some (Val.vstr m.id) ∧
    vGet (serializeMessage m) "content" =
      some (Val.vlist (m.content.map (fun b =>
        Val.vdict [("type", Val.vstr b.type), ("text", Val.vstr b.text)]))) ∧
    vGet (serializeMessage m) "usage" =
      some (Val.vdict
        [("input_tokens", Val.vint m.usage.input_tokens),
         ("output_tokens", Val.vint m.usage.output_tokens),
         ("cache_creation_input_tokens", Val.vint m.usage.cache_creation_input_tokens),
         ("cache_read_input_tokens", Val.vint m.usage.cache_read_input_tokens)]) := by
  refine ⟨?_, rfl, rfl, rfl, rfl⟩
  rw [route_reaches_call cfg msgId send fragments data0 rm fm restMsgs p h1 h2 h3 h4]
  simp [h5, h6]

/-- Witness for the amended claim C4 at a concrete non-streaming round trip. -/
theorem c4_response_shape_witness :
    create_message defaultConfig "msg_c4w" sendOk []
      (some [("model", Val.vstr "claude-3-7-sonnet-20250219"),
             ("messages", Val.vlist [Val.vdict [("content", Val.vstr "Hi")]])]) =
      (HttpResponse.json 200 (serializeMessage msg0),
       [adapter_create_message_params defaultConfig.MODEL [] "Hi"
         (dictGet [("model", Val.vstr "claude-3-7-sonnet-20250219"),
                   ("messages", Val.vlist [Val.vdict [("content", Val.vstr "Hi")]])] "system")
         (handlerKwargs
           [("model", Val.vstr "claude-3-7-sonnet-20250219"),
            ("messages", Val.vlist [Val.vdict [("content", Val.vstr "Hi")]])]
           "claude-3-7-sonnet@20250219")]) :=
  (c4_response_shape defaultConfig "msg_c4w" sendOk []
      [("model", Val.vstr "claude-3-7-sonnet-20250219"),
       ("messages", Val.vlist [Val.vdict [("content", Val.vstr "Hi")]])]
      "claude-3-7-sonnet@20250219" [("content", Val.vstr "Hi")] [] "Hi" msg0
      rfl rfl rfl rfl rfl rfl).1

theorem checkStrs_map_vstr (ts : List String) :
    checkStrs (ts.map Val.vstr) = Except.ok ts := by
  induction ts with
  | nil => rfl
  | cons t ts ih => simp [checkStrs, ih, Except.map]

theorem gatherTexts_wf (items : List Val)
    (hwf : ∀ item ∈ items, ∃ d, item = Val.vdict d ∧
      (dictGet d "type" = some (Val.vstr "text") →
        ∃ s, dictGet d "text" = some (Val.vstr s))) :
    gatherTexts items = Except.ok ((specTextParts items).map Val.vstr) := by
  induction items with
  | nil => rfl
  | cons item rest ih =>
      obtain ⟨d, rfl, hd⟩ := hwf _ (List.mem_cons_self _ _)
      have ihr := ih (fun it hit => hwf it (List.mem_cons_of_mem _ hit))
      cases hty : dictGet d "type" with
      | none => simp [gatherTexts, specTextParts, hty, ihr]
      | some tv =>
          cases tv with
          | vstr t =>
              by_cases ht : t = "text"
              · subst ht
                obtain ⟨s, hs⟩ := hd hty
                simp [gatherTexts, specTextParts, hty, hs, ihr, Except.map]
              · simp [gatherTexts, specTextParts, hty, ht, ihr]
          | vnull => simp [gatherTexts, specTextParts, hty, ihr]
          | vbool b => simp [gatherTexts, specTextParts, hty, ihr]
          | vint n => simp [gatherTexts, specTextParts, hty, ihr]
          | vlist xs => simp [gatherTexts, specTextParts, hty, ihr]
          | vdict fs => simp [gatherTexts, specTextParts, hty, ihr]

theorem normalizeContent_wf (items : List Val)
    (hwf : ∀ item ∈ items, ∃ d, item = Val.vdict d ∧
      (dictGet d "type" = some (Val.vstr "text") →
        ∃ s, dictGet d "text" = some (Val.vstr s))) :
    normalizeContent (Val.vlist items) = Normalized.ok (spec_text_concat items) := by
  simp [normalizeContent, pyJoinTexts, gatherTexts_wf items hwf, checkStrs_map_vstr,
    spec_text_concat]

/-- Claim C5: a plain-string first-message content is forwarded verbatim; a
list of typed parts is forwarded as the texts of exactly the text-tagged
parts, joined in order with single spaces, with non-text parts dropped — in
particular the list of one text part hello plus one non-text part yields
hello, two text parts a and b yield `a b`, and on such a request the upstream
call receives that joined prompt as the single-turn message content. -/
theorem c5_content_normalization :
    (∀ s : String, normalizeContent (Val.vstr s) = Normalized.ok s) ∧
    (∀ items : List Val,
      (∀ item ∈ items, ∃ d, item = Val.vdict d ∧
        (dictGet d "type" = some (Val.vstr "text") →
          ∃ s, dictGet d "text" = some (Val.vstr s))) →
      normalizeContent (Val.vlist items) = Normalized.ok (spec_text_concat items)) ∧
    normalizeContent (Val.vlist
      [Val.vdict [("type", Val.vstr "text"), ("text", Val.vstr "hello")],
       Val.vdict [("type", Val.vstr "image"), ("source", Val.vstr "img")]]) =
      Normalized.ok "hello" ∧
    normalizeContent (Val.vlist
      [Val.vdict [("type", Val.vstr "text"), ("text", Val.vstr "a")],
       Val.vdict [("type", Val.vstr "text"), ("text", Val.vstr "b")]]) =
      Normalized.ok "a b" ∧
    (create_message defaultConfig "msg_c5" sendOk []
      (some [("messages", Val.vlist [Val.vdict [("content", Val.vlist
        [Val.vdict [("type", Val.vstr "text"), ("text", Val.vstr "hello")],
         Val.vdict [("type", Val.vstr "image"), ("source", Val.vstr "img")]])]])])).2.map
      (fun ps => dictGet ps "messages") =
      [some (Val.vlist [Val.vdict [("role", Val.vstr "user"),
        ("content", Val.vstr "hello")]])] :=
  ⟨fun _ => rfl, normalizeContent_wf, rfl, rfl, rfl⟩

/-- Witness for claim C5 at a concrete one-part list. -/
theorem c5_content_normalization_witness :
    normalizeContent (Val.vlist [Val.vdict [("type", Val.vstr "text"),
      ("text", Val.vstr "x")]]) =
      Normalized.ok (spec_text_concat [Val.vdict [("type", Val.vstr "text"),
        ("text", Val.vstr "x")]]) :=
  c5_content_normalization.2.1
    [Val.vdict [("type", Val.vstr "text"), ("text", Val.vstr "x")]]
    (by
      intro item h
      simp only [List.mem_singleton] at h
      subst h
      exact ⟨_, rfl, fun _ => ⟨"x", rfl⟩⟩)

/-- Counterexample to claim C6 as stated: a request whose messages array is
empty but whose model field is a list is answered 500 (the model membership
test raises before the messages check), not 400 — though the upstream
collaborator is still never invoked. -/
theorem c6_counterexample :
    create_message defaultConfig "msg_c6" sendOk []
      (some [("model", Val.vlist []), ("messages", Val.vlist [])]) =
      (HttpResponse.json 500 (errBody "unhashable type: \x27list\x27"), []) := rfl

/-- Claim C6 (amended): a request whose messages array is empty is answered
HTTP 400 provided its model field (if any) is hashable (resolution does not
raise); in every case — hashable model or not — the upstream collaborator is
never invoked on an empty messages array. -/
theorem c6_empty_messages (cfg : Config) (msgId : String)
    (send : List (String × Val) → Except String Message)
    (fragments : List String) (data0 : List (String × Val)) (rm : String)
    (h2 : dictGet data0 "messages" = some (Val.vlist [])) :
    (resolveModel cfg (dictGet data0 "model") = Except.ok rm →
      create_message cfg msgId send fragments (some data0) =
        (HttpResponse.json 400 (errBody "No messages provided"), [])) ∧
    (create_message cfg msgId send fragments (some data0)).2 = [] := by
  have hne : data0 ≠ [] := dictGet_ne_nil data0 "messages" _ h2
  have hE : data0.isEmpty = false := by
    cases data0 with
    | nil => exact absurd rfl hne
    | cons q qs => rfl
  have hMsgs : ∀ r : String, dictGet (handlerData data0 r) "messages" =
      some (Val.vlist []) := by
    intro r
    rw [handlerData, dictGet_dictSet_ne _ _ _ _ (by decide)]
    exact h2
  constructor
  · intro h1
    unfold create_message
    simp [h1, hE, hMsgs, pyTruthy]
  · unfold create_message
    cases hres : resolveModel cfg (dictGet data0 "model") with
    | error e => simp [hres, hE]
    | ok r => simp [hres, hE, hMsgs, pyTruthy]

/-- Witness for the amended claim C6 at a concrete empty-messages request. -/
theorem c6_empty_messages_witness :
    create_message defaultConfig "msg_c6w" sendOk []
      (some [("messages", Val.vlist [])]) =
      (HttpResponse.json 400 (errBody "No messages provided"), []) :=
  (c6_empty_messages defaultConfig "msg_c6w" sendOk []
    [("messages", Val.vlist [])] defaultConfig.MODEL rfl).1 rfl

/-- Counterexample to claim C7 as stated: a request whose first-message
content is neither a string nor a list (an integer) but whose model field is a
dict is answered 500 at the model membership test, never reaching the
`Invalid message content format` 400 branch. -/
theorem c7_counterexample :
    create_message defaultConfig "msg_c7" sendOk []
      (some [("model", Val.vdict []),
             ("messages", Val.vlist [Val.vdict [("content", Val.vint 7)]])]) =
      (HttpResponse.json 500 (errBody "unhashable type: \x27dict\x27"), []) := rfl

/-- Claim C7 (amended): when model resolution does not raise (hashable model
field), a request whose first-message content is neither a string nor a list
is answered HTTP 400 with body message `Invalid message content format`, and
the upstream collaborator is never invoked. -/
theorem c7_invalid_content (cfg : Config) (msgId : String)
    (send : List (String × Val) → Except String Message)
    (fragments : List String) (data0 : List (String × Val))
    (rm : String) (fm : List (String × Val)) (restMsgs : List Val)
    (h1 : resolveModel cfg (dictGet data0 "model") = Except.ok rm)
    (h2 : dictGet data0 "messages" = some (Val.vlist (Val.vdict fm :: restMsgs)))
    (h3 : normalizeContent ((dictGet fm "content").getD Val.vnull) =
      Normalized.invalid) :
    create_message cfg msgId send fragments (some data0) =
      (HttpResponse.json 400 (errBody "Invalid message content format"), []) := by
  have hne : data0 ≠ [] := dictGet_ne_nil data0 "messages" _ h2
  have hE : data0.isEmpty = false := by
    cases data0 with
    | nil => exact absurd rfl hne
    | cons q qs => rfl
  have hMsgs : dictGet (handlerData data0 rm) "messages" =
      some (Val.vlist (Val.vdict fm :: restMsgs)) := by
    rw [handlerData, dictGet_dictSet_ne _ _ _ _ (by decide)]
    exact h2
  unfold create_message
  simp [h1, hE, hMsgs, pyTruthy, pyIndex0, firstContent, h3]

/-- Witness for the amended claim C7 at a concrete integer content. -/
theorem c7_invalid_content_witness :
    create_message defaultConfig "msg_c7w" sendOk []
      (some [("messages", Val.vlist [Val.vdict [("content", Val.vint 7)]])]) =
      (HttpResponse.json 400 (errBody "Invalid message content format"), []) :=
  c7_invalid_content defaultConfig "msg_c7w" sendOk []
    [("messages", Val.vlist [Val.vdict [("content", Val.vint 7)]])]
    defaultConfig.MODEL [("content", Val.vint 7)] [] rfl rfl rfl

/-- Claim C8: a failure of the upstream provider call is caught at the top
level and surfaced as HTTP 500 with body error set to the failure string, and
the upstream collaborator was invoked exactly once — no retry. -/
theorem c8_upstream_error_500 (cfg : Config) (msgId : String)
    (send : List (String × Val) → Except String Message)
    (fragments : List String) (data0 : List (String × Val))
    (rm : String) (fm : List (String × Val)) (restMsgs : List Val) (p : String)
    (e : String)
    (h1 : resolveModel cfg (dictGet data0 "model") = Except.ok rm)
    (h2 : dictGet data0 "messages" = some (Val.vlist (Val.vdict fm :: restMsgs)))
    (h3 : normalizeContent ((dictGet fm "content").getD Val.vnull) = Normalized.ok p)
    (h4 : (handlerKwargs data0 rm).any (fun q => collideKey q.1) = false)
    (h5 : pyTruthy ((dictGet data0 "stream").getD (Val.vbool false)) = false)
    (h6 : send (adapter_create_message_params cfg.MODEL [] p (dictGet data0 "system")
      (handlerKwargs data0 rm)) = Except.error e) :
    create_message cfg msgId send fragments (some data0) =
      (HttpResponse.json 500 (errBody e),
       [adapter_create_message_params cfg.MODEL [] p (dictGet data0 "system")
         (handlerKwargs data0 rm)]) := by
  rw [route_reaches_call cfg msgId send fragments data0 rm fm restMsgs p h1 h2 h3 h4]
  simp [h5, h6]

/-- Witness for claim C8 at a concrete request and an always-failing upstream
stub. -/
theorem c8_upstream_error_500_witness :
    create_message defaultConfig "msg_c8w"
      (fun _ => Except.error "upstream boom") []
      (some [("messages", Val.vlist [Val.vdict [("content", Val.vstr "hi")]])]) =
      (HttpResponse.json 500 (errBody "upstream boom"),
       [adapter_create_message_params defaultConfig.MODEL [] "hi"
         (dictGet [("messages", Val.vlist [Val.vdict [("content", Val.vstr "hi")]])]
           "system")
         (handlerKwargs [("messages", Val.vlist [Val.vdict [("content", Val.vstr "hi")]])]
           defaultConfig.MODEL)]) :=
  c8_upstream_error_500 defaultConfig "msg_c8w" (fun _ => Except.error "upstream boom")
    [] [("messages", Val.vlist [Val.vdict [("content", Val.vstr "hi")]])]
    defaultConfig.MODEL [("content", Val.vstr "hi")] [] "hi" "upstream boom"
    rfl rfl rfl rfl rfl rfl

/-- Claim C9: only the first message is consumed — two requests identical
except in the messages after the first produce the identical outcome: the
same forwarded prompt, the same upstream parameter dicts, and the same
response, with the extra history accepted and ignored. -/
theorem c9_only_first_message (cfg : Config) (msgId : String)
    (send : List (String × Val) → Except String Message)
    (fragments : List String) (data0 : List (String × Val))
    (m : Val) (r1 r2 : List Val)
    (h : dictGet data0 "messages" = some (Val.vlist (m :: r1))) :
    create_message cfg msgId send fragments (some data0) =
      create_message cfg msgId send fragments
        (some (dictSet data0 "messages" (Val.vlist (m :: r2)))) := by
  set dataB := dictSet data0 "messages" (Val.vlist (m :: r2)) with hB
  have hAne : data0 ≠ [] := dictGet_ne_nil data0 "messages" _ h
  have hEA : data0.isEmpty = false := by
    cases data0 with
    | nil => exact absurd rfl hAne
    | cons q qs => rfl
  have hBne : dataB ≠ [] := dictSet_ne_nil _ _ _
  have hEB : dataB.isEmpty = false := by
    cases hc : dataB with
    | nil => exact absurd hc hBne
    | cons q qs => rfl
  have hModelB : dictGet dataB "model" = dictGet data0 "model" :=
    dictGet_dictSet_ne _ _ _ _ (by decide)
  have hMsgsA : ∀ rm : String, dictGet (handlerData data0 rm) "messages" =
      some (Val.vlist (m :: r1)) := by
    intro rm
    rw [handlerData, dictGet_dictSet_ne _ _ _ _ (by decide)]
    exact h
  have hMsgsB : ∀ rm : String, dictGet (handlerData dataB rm) "messages" =
      some (Val.vlist (m :: r2)) := by
    intro rm
    rw [handlerData, dictGet_dictSet_ne _ _ _ _ (by decide), hB]
    exact dictGet_dictSet_self _ _ _
  have hStreamB : ∀ rm : String, dictGet (handlerData dataB rm) "stream" =
      dictGet (handlerData data0 rm) "stream" := by
    intro rm
    rw [handlerData, handlerData, dictGet_dictSet_ne _ _ _ _ (by decide),
      dictGet_dictSet_ne _ _ _ _ (by decide),
      dictGet_dictSet_ne _ _ _ _ (by decide)]
  have hSysB : ∀ rm : String, dictGet (handlerData dataB rm) "system" =
      dictGet (handlerData data0 rm) "system" := by
    intro rm
    rw [handlerData, handlerData, dictGet_dictSet_ne _ _ _ _ (by decide),
      dictGet_dictSet_ne _ _ _ _ (by decide),
      dictGet_dictSet_ne _ _ _ _ (by decide)]
  have hKw : ∀ rm : String, handlerKwargs dataB rm = handlerKwargs data0 rm := by
    intro rm
    unfold handlerKwargs handlerData
    rw [dictSet_filter_true (fun s => !(strippedKey s)) dataB "model"
        (Val.vstr rm) (by decide),
      dictSet_filter_true (fun s => !(strippedKey s)) data0 "model"
        (Val.vstr rm) (by decide), hB,
      dictSet_filter_false (fun s => !(strippedKey s)) data0 "messages"
        (Val.vlist (m :: r2)) (by decide)]
  unfold create_message
  simp only [hEA, hEB, Bool.false_eq_true, if_false, ite_false]
  rw [hModelB]
  cases hres : resolveModel cfg (dictGet data0 "model") with
  | error e => simp [hres]
  | ok rm =>
      simp only [hres,
        hMsgsA rm, hMsgsB rm, hStreamB rm, hSysB rm, hKw rm,
        Option.getD_some, pyTruthy, pyIndex0, not_true, if_true, ite_true]

/-- Witness for claim C9 at a concrete pair of requests differing only in the
second message. -/
theorem c9_only_first_message_witness :
    create_message defaultConfig "msg_c9w" sendOk []
      (some [("messages", Val.vlist [Val.vdict [("content", Val.vstr "hi")]])]) =
      create_message defaultConfig "msg_c9w" sendOk []
        (some (dictSet [("messages", Val.vlist [Val.vdict [("content", Val.vstr "hi")]])]
          "messages"
          (Val.vlist [Val.vdict [("content", Val.vstr "hi")],
                      Val.vdict [("content", Val.vstr "ignored history")]]))) :=
  c9_only_first_message defaultConfig "msg_c9w" sendOk []
    [("messages", Val.vlist [Val.vdict [("content", Val.vstr "hi")]])]
    (Val.vdict [("content", Val.vstr "hi")]) []
    [Val.vdict [("content", Val.vstr "ignored history")]] rfl

theorem gatherTexts_missing (items : List Val)
    (hdicts : ∀ item ∈ items, ∃ d, item = Val.vdict d)
    (hbad : ∃ d, Val.vdict d ∈ items ∧ dictGet d "type" = some (Val.vstr "text") ∧
      dictGet d "text" = none) :
    gatherTexts items = Except.error "\x27text\x27" := by
  induction items with
  | nil =>
      obtain ⟨d, hd, _⟩ := hbad
      simp at hd
  | cons item rest ih =>
      obtain ⟨d0, rfl⟩ := hdicts _ (List.mem_cons_self _ _)
      have hrest : ∀ it ∈ rest, ∃ d, it = Val.vdict d :=
        fun it hit => hdicts it (List.mem_cons_of_mem _ hit)
      obtain ⟨d, hd, hty, htx⟩ := hbad
      rcases List.mem_cons.mp hd with heq | hmem
      · have hdd : d = d0 := by injection heq
        subst hdd
        simp [gatherTexts, hty, htx]
      · have ihr := ih hrest ⟨d, hmem, hty, htx⟩
        cases hty0 : dictGet d0 "type" with
        | none => simp [gatherTexts, hty0, ihr]
        | some tv =>
            cases tv with
            | vstr t =>
                by_cases ht : t = "text"
                · subst ht
                  cases htx0 : dictGet d0 "text" with
                  | none => simp [gatherTexts, hty0, htx0]
                  | some v => simp [gatherTexts, hty0, htx0, ihr, Except.map]
                · simp [gatherTexts, hty0, ht, ihr]
            | vnull => simp [gatherTexts, hty0, ihr]
            | vbool b => simp [gatherTexts, hty0, ihr]
            | vint n => simp [gatherTexts, hty0, ihr]
            | vlist xs => simp [gatherTexts, hty0, ihr]
            | vdict fs => simp [gatherTexts, hty0, ihr]

theorem gatherTexts_no_text_tag (items : List Val)
    (h : ∀ item ∈ items, ∃ d, item = Val.vdict d ∧
      dictGet d "type" ≠ some (Val.vstr "text")) :
    gatherTexts items = Except.ok [] := by
  induction items with
  | nil => rfl
  | cons item rest ih =>
      obtain ⟨d0, rfl, hne⟩ := h _ (List.mem_cons_self _ _)
      have ihr := ih (fun it hit => h it (List.mem_cons_of_mem _ hit))
      cases hty0 : dictGet d0 "type" with
      | none => simp [gatherTexts, hty0, ihr]
      | some tv =>
          cases tv with
          | vstr t =>
              have ht : t ≠ "text" := by
                intro hh
                exact hne (hh ▸ hty0)
              simp [gatherTexts, hty0, ht, ihr]
          | vnull => simp [gatherTexts, hty0, ihr]
          | vbool b => simp [gatherTexts, hty0, ihr]
          | vint n => simp [gatherTexts, hty0, ihr]
          | vlist xs => simp [gatherTexts, hty0, ihr]
          | vdict fs => simp [gatherTexts, hty0, ihr]

/-- Claim C10: a first-message content list containing a text-tagged part with
no text field makes normalization raise (KeyError), answered as HTTP 500 with
an error body — not as a 400 validation error — with the upstream collaborator
never invoked; by contrast a list of parts none of which is text-tagged
normalizes to the empty prompt and the request proceeds normally through the
upstream call. -/
theorem c10_text_part_edge_cases :
    (∀ (cfg : Config) (msgId : String)
      (send : List (String × Val) → Except String Message)
      (fragments : List String) (data0 : List (String × Val))
      (rm : String) (fm : List (String × Val)) (restMsgs : List Val)
      (items : List Val),
      resolveModel cfg (dictGet data0 "model") = Except.ok rm →
      dictGet data0 "messages" = some (Val.vlist (Val.vdict fm :: restMsgs)) →
      dictGet fm "content" = some (Val.vlist items) →
      (∀ item ∈ items, ∃ d, item = Val.vdict d) →
      (∃ d, Val.vdict d ∈ items ∧ dictGet d "type" = some (Val.vstr "text") ∧
        dictGet d "text" = none) →
      create_message cfg msgId send fragments (some data0) =
        (HttpResponse.json 500 (errBody "\x27text\x27"), [])) ∧
    (∀ (cfg : Config) (msgId : String)
      (send : List (String × Val) → Except String Message)
      (fragments : List String) (data0 : List (String × Val))
      (rm : String) (fm : List (String × Val)) (restMsgs : List Val)
      (items : List Val) (m : Message),
      resolveModel cfg (dictGet data0 "model") = Except.ok rm →
      dictGet data0 "messages" = some (Val.vlist (Val.vdict fm :: restMsgs)) →
      dictGet fm "content" = some (Val.vlist items) →
      (∀ item ∈ items, ∃ d, item = Val.vdict d ∧
        dictGet d "type" ≠ some (Val.vstr "text")) →
      (handlerKwargs data0 rm).any (fun q => collideKey q.1) = false →
      pyTruthy ((dictGet data0 "stream").getD (Val.vbool false)) = false →
      send (adapter_create_message_params cfg.MODEL [] "" (dictGet data0 "system")
        (handlerKwargs data0 rm)) = Except.ok m →
      normalizeContent (Val.vlist items) = Normalized.ok "" ∧
      create_message cfg msgId send fragments (some data0) =
        (HttpResponse.json 200 (serializeMessage m),
         [adapter_create_message_params cfg.MODEL [] "" (dictGet data0 "system")
           (handlerKwargs data0 rm)])) := by
  constructor
  · intro cfg msgId send fragments data0 rm fm restMsgs items h1 h2 hc hdicts hbad
    have hraise : normalizeContent ((dictGet fm "content").getD Val.vnull) =
        Normalized.raise "\x27text\x27" := by
      rw [hc]
      simp [normalizeContent, pyJoinTexts, gatherTexts_missing items hdicts hbad]
    have hne : data0 ≠ [] := dictGet_ne_nil data0 "messages" _ h2
    have hE : data0.isEmpty = false := by
      cases data0 with
      | nil => exact absurd rfl hne
      | cons q qs => rfl
    have hMsgs : dictGet (handlerData data0 rm) "messages" =
        some (Val.vlist (Val.vdict fm :: restMsgs)) := by
      rw [handlerData, dictGet_dictSet_ne _ _ _ _ (by decide)]
      exact h2
    unfold create_message
    simp [h1, hE, hMsgs, pyTruthy, pyIndex0, firstContent, hraise]
  · intro cfg msgId send fragments data0 rm fm restMsgs items m h1 h2 hc hno h4 h5 h6
    have hok : normalizeContent (Val.vlist items) = Normalized.ok "" := by
      simp [normalizeContent, pyJoinTexts, gatherTexts_no_text_tag items hno, checkStrs]
      rfl
    refine ⟨hok, ?_⟩
    have h3 : normalizeContent ((dictGet fm "content").getD Val.vnull) =
        Normalized.ok "" := by
      rw [hc]
      exact hok
    rw [route_reaches_call cfg msgId send fragments data0 rm fm restMsgs "" h1 h2 h3 h4]
    simp [h5, h6]

/-- Witness for claim C10: the missing-text part answers 500 with the KeyError
string; the no-text-part list proceeds to a 200 round trip. -/
theorem c10_text_part_edge_cases_witness :
    create_message defaultConfig "msg_c10a" sendOk []
      (some [("messages", Val.vlist [Val.vdict [("content",
        Val.vlist [Val.vdict [("type", Val.vstr "text")]])]])]) =
      (HttpResponse.json 500 (errBody "\x27text\x27"), []) ∧
    create_message defaultConfig "msg_c10b" sendOk []
      (some [("messages", Val.vlist [Val.vdict [("content",
        Val.vlist [Val.vdict [("type", Val.vstr "image")]])]])]) =
      (HttpResponse.json 200 (serializeMessage msg0),
       [adapter_create_message_params defaultConfig.MODEL [] ""
         (dictGet [("messages", Val.vlist [Val.vdict [("content",
           Val.vlist [Val.vdict [("type", Val.vstr "image")]])]])] "system")
         (handlerKwargs [("messages", Val.vlist [Val.vdict [("content",
           Val.vlist [Val.vdict [("type", Val.vstr "image")]])]])]
           defaultConfig.MODEL)]) :=
  ⟨c10_text_part_edge_cases.1 defaultConfig "msg_c10a" sendOk []
      [("messages", Val.vlist [Val.vdict [("content",
        Val.vlist [Val.vdict [("type", Val.vstr "text")]])]])]
      defaultConfig.MODEL
      [("content", Val.vlist [Val.vdict [("type", Val.vstr "text")]])] []
      [Val.vdict [("type", Val.vstr "text")]]
      rfl rfl rfl
      (by
        intro item hit
        simp only [List.mem_singleton] at hit
        subst hit
        exact ⟨_, rfl⟩)
      ⟨[("type", Val.vstr "text")], by simp, rfl, rfl⟩,
   (c10_text_part_edge_cases.2 defaultConfig "msg_c10b" sendOk []
      [("messages", Val.vlist [Val.vdict [("content",
        Val.vlist [Val.vdict [("type", Val.vstr "image")]])]])]
      defaultConfig.MODEL
      [("content", Val.vlist [Val.vdict [("type", Val.vstr "image")]])] []
      [Val.vdict [("type", Val.vstr "image")]] msg0
      rfl rfl rfl
      (by
        intro item hit
        simp only [List.mem_singleton] at hit
        subst hit
        refine ⟨_, rfl, ?_⟩
        intro hh
        simp [dictGet] at hh)
      rfl rfl rfl).2⟩
